import Mathlib

/-!
Verification of the request-routing and endpoint-stack core of the
linkerd2-proxy excerpt: a shallow embedding of the routing data model,
the outbound loop-prevention connect filter, the inbound request router,
the outbound ingress router, and the gateway request pipeline, together
with theorems checking the specification's claims against them.
-/

namespace Linkerd

/-! ## Data model: addresses and identities -/

/-- An IP address.  Only the v4 form is needed by the excerpt; `is_loopback`
follows `std::net::Ipv4Addr::is_loopback` (first octet 127). -/
inductive IpAddr
  | v4 (a b c d : Nat)
  deriving DecidableEq, Repr

def IpAddr.is_loopback : IpAddr → Bool
  | .v4 a _ _ _ => a == 127

/-- A socket address: IP plus port, as in `std::net::SocketAddr`. -/
structure SocketAddr where
  ip : IpAddr
  port : Nat
  deriving DecidableEq, Repr

/-- Reasons a peer identity may be absent (`tls::ReasonForNoPeerName`). -/
inductive ReasonForNoPeerName
  | portSkipped
  | noPeerIdFromRemote
  | loopback
  | localIdentityDisabled
  | ingressNonHttp
  deriving DecidableEq, Repr

/-- `tls::Conditional<T>`: either a value or a reason for its absence. -/
inductive Conditional (A : Type)
  | some (a : A)
  | none (reason : ReasonForNoPeerName)
  deriving DecidableEq, Repr

/-- A peer identity is a conditional DNS-like name. -/
abbrev PeerIdentity := Conditional String

/-- A logical destination (`Addr`): a `Name:port` or a raw socket address. -/
inductive Addr
  | name (host : String) (port : Nat)
  | socket (sa : SocketAddr)
  deriving DecidableEq, Repr

/-- The name-addr view of an `Addr` (`Addr::name_addr`): the `host:port`
pair when the destination is named, `none` for raw socket addresses. -/
def Addr.name_addr : Addr → Option (String × Nat)
  | .name h p => Option.some (h, p)
  | .socket _ => Option.none

/-! ## Address parsing

Modelled from the spec: `Addr::from_str` and the `http_request_*_addr`
helpers live in the `linkerd2_app_core` / `linkerd-addr` crates, which are
not part of the excerpt.  The spec describes an `Addr` as "either a
`Name:port` (DNS-resolvable ...) or a raw `SocketAddr`", so parsing splits
`host:port`, parses the port as a decimal u16, and classifies the host as
an IPv4 literal or a name.  Parsing is over character lists so every
definition reduces in the kernel. -/

def digitVal (c : Char) : Option Nat :=
  if c.isDigit then Option.some (c.toNat - 48) else Option.none

/-- Parse a non-empty all-digit character list as a decimal number. -/
def parseNat (cs : List Char) : Option Nat :=
  if cs.isEmpty then Option.none
  else cs.foldl (fun acc c => acc.bind fun n => (digitVal c).map fun d => n * 10 + d)
        (Option.some 0)

/-- Split a character list on a separator character.  Always returns at
least one (possibly empty) group. -/
def splitOnChar (sep : Char) : List Char → List (List Char)
  | [] => [[]]
  | c :: rest =>
    let r := splitOnChar sep rest
    if c = sep then [] :: r
    else
      match r with
      | [] => [[c]]
      | g :: gs => (c :: g) :: gs

/-- Parse a dotted-quad IPv4 literal. -/
def parseIpv4 (cs : List Char) : Option IpAddr :=
  match (splitOnChar (Char.ofNat 46) cs).mapM parseNat with
  | Option.some [a, b, c, d] =>
    if a ≤ 255 && b ≤ 255 && c ≤ 255 && d ≤ 255 then
      Option.some (IpAddr.v4 a b c d)
    else Option.none
  | _ => Option.none

/-- Parse a port: decimal, at most 65535. -/
def parsePort (cs : List Char) : Option Nat :=
  (parseNat cs).bind fun n => if n ≤ 65535 then Option.some n else Option.none

/-- Modelled from the spec: `Addr::from_str` parses `host:port`, yielding a
socket `Addr` for an IPv4 literal host and a named `Addr` otherwise. -/
def Addr.from_str (s : String) : Option Addr :=
  match splitOnChar (Char.ofNat 58) s.data with
  | [hostCs, portCs] =>
    (parsePort portCs).bind fun port =>
      if hostCs.isEmpty then Option.none
      else
        match parseIpv4 hostCs with
        | Option.some ip => Option.some (Addr.socket ⟨ip, port⟩)
        | Option.none => Option.some (Addr.name (String.mk hostCs) port)
  | _ => Option.none

/-! ## HTTP requests -/

/-- The wire-level HTTP version of a request (`http::Version` of the
`http` crate). -/
inductive RawHttpVersion
  | http09
  | http10
  | http11
  | h2
  | h3
  deriving DecidableEq, Repr

/-- The proxy's HTTP version (`http::Version` of the proxy): H1 or H2 only,
per the spec's `Target` model (`http_version ∈ {H1, H2}`). -/
inductive HttpVersion
  | http1
  | h2
  deriving DecidableEq, Repr

/-- Modelled from the spec: the `TryFrom` conversion from the wire version
into the proxy's `{H1, H2}` version; HTTP/1.0 and HTTP/1.1 convert to H1,
HTTP/2 to H2, and anything else fails. -/
def HttpVersion.try_from : RawHttpVersion → Option HttpVersion
  | .http10 => Option.some .http1
  | .http11 => Option.some .http1
  | .h2 => Option.some .h2
  | _ => Option.none

/-- The header-level view of an HTTP request consumed by the routers: the
`l5d-dst-canonical` header, the `l5d-dst-override` header, the URI
`:authority`, the `Host` header, and the wire HTTP version. -/
structure Request where
  canonicalDst : Option String
  dstOverride : Option String
  authority : Option String
  host : Option String
  version : RawHttpVersion
  deriving DecidableEq, Repr

/-- Modelled from the spec: parse the `l5d-dst-override` header as an
`Addr` (`http_request_l5d_override_dst_addr`). -/
def http_request_l5d_override_dst_addr (req : Request) : Option Addr :=
  req.dstOverride.bind Addr.from_str

/-- Modelled from the spec: parse the request URI `:authority` as an
`Addr` (`http_request_authority_addr`). -/
def http_request_authority_addr (req : Request) : Option Addr :=
  req.authority.bind Addr.from_str

/-- Modelled from the spec: parse the `Host` header as an `Addr`
(`http_request_host_addr`). -/
def http_request_host_addr (req : Request) : Option Addr :=
  req.host.bind Addr.from_str

/-! ## Connect stack: loop prevention
(`outbound/src/tcp/connect.rs`) -/

/-- An outbound endpoint (`Endpoint<P>`): the resolved socket address, the
endpoint's conditional identity, and the logical payload. -/
structure Endpoint (P : Type) where
  addr : SocketAddr
  identity : PeerIdentity
  logical : P
  deriving DecidableEq, Repr

/-- The error produced by the loop-prevention filter
(`LoopPrevented { port }`). -/
inductive ConnectError
  | loopPrevented (port : Nat)
  deriving DecidableEq, Repr

/-- A connection policy that fails connections that target the outbound
listener (`PreventLoop { port }`). -/
structure PreventLoop where
  port : Nat
  deriving DecidableEq, Repr

/-- `PreventLoop::filter`: reject the endpoint with `LoopPrevented` when
its IP is loopback and its port equals the process's own server port;
otherwise pass the endpoint through unchanged. -/
def PreventLoop.filter {P : Type} (self : PreventLoop) (ep : Endpoint P) :
    Except ConnectError (Endpoint P) :=
  let addr := ep.addr
  if addr.ip.is_loopback && addr.port == self.port then
    Except.error (ConnectError.loopPrevented self.port)
  else
    Except.ok ep

/-! ## Error chains and `is_loop`
(`outbound/src/tcp/connect.rs`) -/

/-- The kind of a single error value: a `LoopPrevented` error, or any
other error. -/
inductive ErrorKind
  | loopPrevented (port : Nat)
  | other (msg : String)
  deriving DecidableEq, Repr

/-- Whether a single error value downcasts to `LoopPrevented`
(`err.is::<LoopPrevented>()`). -/
def ErrorKind.isLoopPreventedKind : ErrorKind → Bool
  | .loopPrevented _ => true
  | .other _ => false

/-- A chained `std::error::Error` value: its own kind plus an optional
source error. -/
inductive ErrChain
  | leaf (kind : ErrorKind)
  | wrap (kind : ErrorKind) (src : ErrChain)
  deriving DecidableEq, Repr

/-- `Error::source`: the next error in the chain, when present. -/
def ErrChain.source : ErrChain → Option ErrChain
  | .leaf _ => Option.none
  | .wrap _ s => Option.some s

/-- The kind of the outermost error in the chain. -/
def ErrChain.kind : ErrChain → ErrorKind
  | .leaf k => k
  | .wrap k _ => k

/-- `is_loop`: `err.is::<LoopPrevented>() ||
err.source().map(is_loop).unwrap_or(false)`, written by cases on the
source so the recursion is structural. -/
def is_loop : ErrChain → Bool
  | .leaf kind => kind.isLoopPreventedKind || false
  | .wrap kind src => kind.isLoopPreventedKind || is_loop src

/-- All kinds along the source chain of an error, outermost first. -/
def ErrChain.chainKinds : ErrChain → List ErrorKind
  | .leaf k => [k]
  | .wrap k s => k :: s.chainKinds

/-! ## Inbound router
(`inbound/src/endpoint.rs`) -/

/-- `TcpAccept`: the per-connection context delivered by the inbound
listener. -/
structure TcpAccept where
  target_addr : SocketAddr
  peer_addr : SocketAddr
  peer_id : PeerIdentity
  deriving DecidableEq, Repr

/-- `Target`: the recognized routing key for an inbound request. -/
structure Target where
  dst : Addr
  socket_addr : SocketAddr
  http_version : HttpVersion
  tls_client_id : PeerIdentity
  deriving DecidableEq, Repr

/-- `impl tls::HasPeerIdentity for Target`: the identity advertised when
connecting onward for this target is always absent, with reason
`Loopback` — never a verified name. -/
def Target.peer_identity (_ : Target) : PeerIdentity :=
  Conditional.none ReasonForNoPeerName.loopback

/-- `RequestTarget`: the inbound router's recognizer, wrapping the accept
context. -/
structure RequestTarget where
  accept : TcpAccept
  deriving DecidableEq, Repr

/-- `RequestTarget::recognize`: choose `dst` as the first successfully
parsed candidate among the `l5d-dst-canonical` header, the
`l5d-dst-override` header, the URI `:authority`, the `Host` header, and
finally the accepted connection's original destination.  The source
converts the request's HTTP version with
`try_into().expect("HTTP version must be valid")`; the panic on an
unconvertible version is modelled as `Option.none`. -/
def RequestTarget.recognize (self : RequestTarget) (req : Request) : Option Target :=
  let dst :=
    ((((req.canonicalDst.bind fun d => Addr.from_str d).orElse
        fun _ => http_request_l5d_override_dst_addr req).orElse
        fun _ => http_request_authority_addr req).orElse
        fun _ => http_request_host_addr req).getD
      (Addr.socket self.accept.target_addr)
  (HttpVersion.try_from req.version).map fun v =>
    { dst := dst
      socket_addr := self.accept.target_addr
      http_version := v
      tls_client_id := self.accept.peer_id }

/-- The first non-`none` element of a list of candidates. -/
def first_of {A : Type} : List (Option A) → Option A
  | [] => Option.none
  | c :: rest =>
    match c with
    | Option.some a => Option.some a
    | Option.none => first_of rest

/-- The spec's fallback chain, as written: the chosen `dst` is the first
non-error value in `[canonical, override, authority, host, orig_dst]`. -/
def spec_fallback_dst (req : Request) (orig : SocketAddr) : Addr :=
  (first_of
    [req.canonicalDst.bind Addr.from_str,
     http_request_l5d_override_dst_addr req,
     http_request_authority_addr req,
     http_request_host_addr req]).getD (Addr.socket orig)

/-! ## Outbound ingress router
(`outbound/src/ingress.rs`) -/

/-- `http::Accept` for the outbound proxy: the original destination of the
accepted connection and the detected protocol. -/
structure HttpAccept where
  orig_dst : SocketAddr
  protocol : HttpVersion
  deriving DecidableEq, Repr

/-- The ingress-mode routing target (`ingress::Target`). -/
structure IngressTarget where
  dst : Addr
  accept : HttpAccept
  deriving DecidableEq, Repr

/-- `TargetPerRequest`: the ingress-mode per-request recognizer, wrapping
the accept context. -/
structure TargetPerRequest where
  accept : HttpAccept
  deriving DecidableEq, Repr

/-- `TargetPerRequest::recognize`: `dst` is the parsed `l5d-dst-override`
header, or else the accepted connection's original destination. -/
def TargetPerRequest.recognize (self : TargetPerRequest) (req : Request) : IngressTarget :=
  { accept := self.accept
    dst := (http_request_l5d_override_dst_addr req).getD
      (Addr.socket self.accept.orig_dst) }

/-! ## Gateway
(`gateway/src/lib.rs` carries only the tests; the gateway service itself
is in the repository's `gateway` and `make` modules, absent from the
excerpt, so it is modelled from the spec, section 4.7.) -/

/-- One hop of an RFC 7239 `Forwarded` chain: `by`, `for`, `host`,
`proto` parameters. -/
structure ForwardedHop where
  byId : Option String
  forId : Option String
  hostAuth : Option String
  proto : Option String
  deriving DecidableEq, Repr

/-- The gateway-level view of a request: its `Forwarded` chain. -/
structure GatewayRequest where
  forwarded : List ForwardedHop
  deriving DecidableEq, Repr

/-- The HTTP errors the gateway synthesizes. -/
inductive HttpError
  | identityRequired
  | notFound
  | loopDetected
  deriving DecidableEq, Repr

/-- The HTTP status carried by each gateway error. -/
def HttpError.status : HttpError → Nat
  | .identityRequired => 403
  | .notFound => 404
  | .loopDetected => 508

/-- The `host:port` authority string of a named destination. -/
def authorityOf (host : String) (port : Nat) : String :=
  host ++ ":" ++ toString port

/-- A ServiceProfile as delivered by profile discovery; only its presence
and name matter to the gateway. -/
structure Profile where
  name : Option String
  deriving DecidableEq, Repr

/-- Modelled from the spec: the gateway request pipeline (section 4.7).
The gateway's own identity is `selfId`; `profile` is the result of
profile discovery for the target; `target` is the recognized inbound
routing key.  Steps, in order: (1) require a peer identity, else 403;
(2) require a named destination computed from `:authority`/`Host`, else
404; (3) require a profile, else 404; (4) reject with 508 when any
`Forwarded` hop has `by=` equal to the gateway's own identity;
(5) otherwise forward with one appended hop
`by=<self>; for=<peer>; host=<dst-authority>; proto=https`. -/
def gateway (selfId : String) (profile : Option Profile) (target : Target)
    (req : GatewayRequest) : Except HttpError GatewayRequest :=
  match target.tls_client_id with
  | Conditional.none _ => Except.error HttpError.identityRequired
  | Conditional.some peerId =>
    match target.dst.name_addr with
    | Option.none => Except.error HttpError.notFound
    | Option.some (host, port) =>
      match profile with
      | Option.none => Except.error HttpError.notFound
      | Option.some _ =>
        if req.forwarded.any fun hop => hop.byId == Option.some selfId then
          Except.error HttpError.loopDetected
        else
          Except.ok
            { forwarded := req.forwarded ++
                [{ byId := Option.some selfId
                   forId := Option.some peerId
                   hostAuth := Option.some (authorityOf host port)
                   proto := Option.some "https" }] }

/-! ## Sample inputs for concrete checks -/

/-- A sample accepted-connection context for concrete checks. -/
def sampleAccept : TcpAccept :=
  { target_addr := ⟨IpAddr.v4 10 0 0 1, 8080⟩
    peer_addr := ⟨IpAddr.v4 10 0 0 2, 55555⟩
    peer_id := Conditional.some "client.id" }

/-- A sample request whose canonical-dst header is present but unparsable
and whose override header parses. -/
def sampleReq : Request :=
  { canonicalDst := Option.some "not-an-addr"
    dstOverride := Option.some "svc.ns:8080"
    authority := Option.some "auth.host:1234"
    host := Option.none
    version := RawHttpVersion.http11 }

/-- The target recognized for `sampleReq` on `sampleAccept`. -/
def sampleTarget : Target :=
  { dst := Addr.name "svc.ns" 8080
    socket_addr := ⟨IpAddr.v4 10 0 0 1, 8080⟩
    http_version := HttpVersion.http1
    tls_client_id := Conditional.some "client.id" }

/-- A sample HTTP/2 request with no routing headers. -/
def sampleReqH2 : Request :=
  { canonicalDst := Option.none
    dstOverride := Option.none
    authority := Option.none
    host := Option.none
    version := RawHttpVersion.h2 }

/-- The target recognized for `sampleReqH2` on `sampleAccept`. -/
def sampleTargetH2 : Target :=
  { dst := Addr.socket ⟨IpAddr.v4 10 0 0 1, 8080⟩
    socket_addr := ⟨IpAddr.v4 10 0 0 1, 8080⟩
    http_version := HttpVersion.h2
    tls_client_id := Conditional.some "client.id" }

/-- A sample ingress accept context. -/
def sampleHttpAccept : HttpAccept :=
  { orig_dst := ⟨IpAddr.v4 10 0 0 9, 9090⟩
    protocol := HttpVersion.http1 }

/-- A gateway request mirroring the repository's gateway test: no incoming
`Forwarded` hops. -/
def sampleGatewayReq : GatewayRequest := { forwarded := [] }

/-- The hop the gateway appends in the repository's gateway test
scenario. -/
def sampleAppendedHop : ForwardedHop :=
  { byId := Option.some "gateway.id.test"
    forId := Option.some "client.id.test"
    hostAuth := Option.some "dst.test.example.com:4321"
    proto := Option.some "https" }

/-- The gateway test's target. -/
def sampleGatewayTarget : Target :=
  { dst := Addr.name "dst.test.example.com" 4321
    socket_addr := ⟨IpAddr.v4 127 0 0 1, 4143⟩
    http_version := HttpVersion.http1
    tls_client_id := Conditional.some "client.id.test" }

/-! ## Theorems -/

/-- A four-element `Option.orElse` chain equals the first non-`none`
element of the corresponding candidate list. -/
theorem orElse_chain_eq_first_of (a b c d : Option Addr) :
    (((a.orElse fun _ => b).orElse fun _ => c).orElse fun _ => d) =
    first_of [a, b, c, d] := by
  cases a <;> cases b <;> cases c <;> cases d <;> rfl

/-- Claim C1: the Connect stack's loop-prevention filter rejects an
endpoint with `LoopPrevented { port }` exactly when the endpoint's IP is
loopback and its port equals the process's own server port, and returns
every other endpoint unchanged. -/
theorem prevent_loop_filter_correct {P : Type} (self : PreventLoop) (ep : Endpoint P) :
    (self.filter ep = Except.error (ConnectError.loopPrevented self.port) ↔
      ep.addr.ip.is_loopback = true ∧ ep.addr.port = self.port) ∧
    (¬ (ep.addr.ip.is_loopback = true ∧ ep.addr.port = self.port) →
      self.filter ep = Except.ok ep) := by
  by_cases h : ep.addr.ip.is_loopback = true ∧ ep.addr.port = self.port
  · refine ⟨⟨fun _ => h, fun _ => ?_⟩, fun hc => absurd h hc⟩
    simp [PreventLoop.filter, h.1, h.2]
  · have hfalse : (ep.addr.ip.is_loopback && ep.addr.port == self.port) = false := by
      rcases Bool.eq_false_or_eq_true (ep.addr.ip.is_loopback && ep.addr.port == self.port)
        with ht | hf
      · exact absurd (by simpa using ht) h
      · exact hf
    refine ⟨⟨fun hf => ?_, fun hh => absurd hh h⟩, fun _ => ?_⟩
    · simp [PreventLoop.filter, hfalse] at hf
    · simp [PreventLoop.filter, hfalse]

/-- Witness for claim C1: a loopback endpoint on the server port is
rejected and a non-loopback endpoint on the same port passes through. -/
theorem prevent_loop_filter_correct_witness :
    (PreventLoop.filter ⟨4140⟩
      ({ addr := ⟨IpAddr.v4 127 0 0 1, 4140⟩
         identity := Conditional.none ReasonForNoPeerName.noPeerIdFromRemote
         logical := () } : Endpoint Unit) =
      Except.error (ConnectError.loopPrevented 4140)) ∧
    (PreventLoop.filter ⟨4140⟩
      ({ addr := ⟨IpAddr.v4 10 1 2 3, 4140⟩
         identity := Conditional.none ReasonForNoPeerName.noPeerIdFromRemote
         logical := () } : Endpoint Unit) =
      Except.ok
      { addr := ⟨IpAddr.v4 10 1 2 3, 4140⟩
        identity := Conditional.none ReasonForNoPeerName.noPeerIdFromRemote
        logical := () }) :=
  ⟨(prevent_loop_filter_correct ⟨4140⟩ _).1.mpr (by decide),
   (prevent_loop_filter_correct ⟨4140⟩ _).2 (by decide)⟩

/-- Claim C7: `is_loop` returns true exactly when some error in the
source chain — the error itself or any transitive source — is a
`LoopPrevented` error. -/
theorem is_loop_iff_chain (e : ErrChain) :
    is_loop e = true ↔ ∃ k ∈ e.chainKinds, k.isLoopPreventedKind = true := by
  induction e with
  | leaf k => simp [is_loop, ErrChain.chainKinds]
  | wrap k s ih => simp [is_loop, ErrChain.chainKinds, Bool.or_eq_true, ih]

/-- Witness for claim C7: a `LoopPrevented` error wrapped twice is
recognized, and a chain with no `LoopPrevented` is not. -/
theorem is_loop_iff_chain_witness :
    (is_loop (ErrChain.wrap (ErrorKind.other "io")
      (ErrChain.wrap (ErrorKind.other "connect")
        (ErrChain.leaf (ErrorKind.loopPrevented 4140)))) = true) ∧
    (is_loop (ErrChain.wrap (ErrorKind.other "io")
      (ErrChain.leaf (ErrorKind.other "refused"))) = false) := by
  constructor
  · exact (is_loop_iff_chain _).mpr ⟨ErrorKind.loopPrevented 4140, by decide, by decide⟩
  · decide

/-- Claim C2: for every request the inbound router recognizes, the chosen
`dst` is the first successfully parsed candidate in the order canonical
header, override header, URI authority, Host header, original
destination — a present but unparsable candidate is skipped. -/
theorem recognize_fallback_chain (self : RequestTarget) (req : Request) (t : Target)
    (h : self.recognize req = Option.some t) :
    t.dst = spec_fallback_dst req self.accept.target_addr := by
  unfold RequestTarget.recognize at h
  cases hv : HttpVersion.try_from req.version with
  | none => rw [hv] at h; simp at h
  | some v =>
    rw [hv] at h
    simp only [Option.map_some] at h
    have ht := Option.some.inj h
    rw [← ht]
    simp only [spec_fallback_dst]
    rw [orElse_chain_eq_first_of]

/-- Witness for claim C2: with an unparsable canonical-dst header and a
parsable override header, the recognized `dst` is the override value,
matching the spec's fallback chain. -/
theorem recognize_fallback_chain_witness :
    sampleTarget.dst = spec_fallback_dst sampleReq sampleAccept.target_addr :=
  recognize_fallback_chain ⟨sampleAccept⟩ sampleReq sampleTarget (by decide)

/-- Claim C10: the inbound router's recognize produces a target exactly
when the request's HTTP version converts to H1 or H2 (the source panics,
modelled as `none`, otherwise — in particular for HTTP/0.9 and HTTP/3);
when it does, the target's `socket_addr` is the accepted connection's
target address and its `tls_client_id` is the accepted peer identity. -/
theorem recognize_total_iff (self : RequestTarget) (req : Request) :
    ((self.recognize req).isSome ↔ HttpVersion.try_from req.version ≠ Option.none) ∧
    (∀ t, self.recognize req = Option.some t →
      t.socket_addr = self.accept.target_addr ∧
      t.tls_client_id = self.accept.peer_id) ∧
    HttpVersion.try_from RawHttpVersion.http09 = Option.none ∧
    HttpVersion.try_from RawHttpVersion.h3 = Option.none := by
  refine ⟨?_, ?_, rfl, rfl⟩
  · cases hv : HttpVersion.try_from req.version <;>
      simp [RequestTarget.recognize, hv]
  · intro t h
    unfold RequestTarget.recognize at h
    cases hv : HttpVersion.try_from req.version with
    | none => rw [hv] at h; simp at h
    | some v =>
      rw [hv] at h
      simp only [Option.map_some] at h
      have ht := Option.some.inj h
      rw [← ht]
      exact ⟨rfl, rfl⟩

/-- Witness for claim C10: the recognized target of a concrete HTTP/2
request carries the accept's target address and peer identity. -/
theorem recognize_total_iff_witness :
    sampleTargetH2.socket_addr = sampleAccept.target_addr ∧
    sampleTargetH2.tls_client_id = sampleAccept.peer_id :=
  (recognize_total_iff ⟨sampleAccept⟩ sampleReqH2).2.1 sampleTargetH2 (by decide)

/-- Claim C3: in outbound ingress mode the per-request `dst` comes from
the `l5d-dst-override` header alone, falling back to the accepted
connection's original destination; no other header is consulted — two
requests agreeing on the override header are recognized identically. -/
theorem ingress_recognize_override_only (self : TargetPerRequest) (req other : Request)
    (hsame : req.dstOverride = other.dstOverride) :
    ((self.recognize req).dst =
      (http_request_l5d_override_dst_addr req).getD
        (Addr.socket self.accept.orig_dst)) ∧
    ((http_request_l5d_override_dst_addr req = Option.none →
      (self.recognize req).dst = Addr.socket self.accept.orig_dst)) ∧
    self.recognize req = self.recognize other := by
  refine ⟨rfl, fun hnone => ?_, ?_⟩
  · simp [TargetPerRequest.recognize, hnone]
  · simp [TargetPerRequest.recognize, http_request_l5d_override_dst_addr, hsame]

/-- Witness for claim C3: a concrete ingress recognition uses the
override header and ignores changes to every other header. -/
theorem ingress_recognize_override_only_witness :
    ((TargetPerRequest.recognize ⟨sampleHttpAccept⟩ sampleReq).dst =
      (http_request_l5d_override_dst_addr sampleReq).getD
        (Addr.socket sampleHttpAccept.orig_dst)) ∧
    TargetPerRequest.recognize ⟨sampleHttpAccept⟩ sampleReq =
      TargetPerRequest.recognize ⟨sampleHttpAccept⟩
        { sampleReq with
            canonicalDst := Option.none
            authority := Option.none
            host := Option.some "elsewhere:1" } :=
  ⟨(ingress_recognize_override_only ⟨sampleHttpAccept⟩ sampleReq sampleReq rfl).1,
   (ingress_recognize_override_only ⟨sampleHttpAccept⟩ sampleReq
      { sampleReq with
          canonicalDst := Option.none
          authority := Option.none
          host := Option.some "elsewhere:1" } rfl).2.2⟩

/-- Claim C9: a target lacking a verified peer identity is never silently
given one — the identity the target advertises for onward connections is
never a verified name. -/
theorem target_identity_never_upgraded (t : Target) (r : ReasonForNoPeerName)
    (_h : t.tls_client_id = Conditional.none r) :
    ∀ n, Target.peer_identity t ≠ Conditional.some n := by
  intro n heq
  exact Conditional.noConfusion heq

/-- Witness for claim C9: a target with no peer identity is not given
one. -/
theorem target_identity_never_upgraded_witness :
    Target.peer_identity
      { dst := Addr.socket ⟨IpAddr.v4 10 0 0 1, 8080⟩
        socket_addr := ⟨IpAddr.v4 10 0 0 1, 8080⟩
        http_version := HttpVersion.http1
        tls_client_id := Conditional.none ReasonForNoPeerName.noPeerIdFromRemote } ≠
      Conditional.some "substitute.id" :=
  target_identity_never_upgraded _ ReasonForNoPeerName.noPeerIdFromRemote rfl
    "substitute.id"

/-- Claim C4: with identity, named destination and profile present, the
gateway rejects a request whose `Forwarded` chain contains a hop with
`by=` equal to its own identity with 508, and otherwise forwards it with
exactly one appended hop
`by=<self>; for=<peer>; host=<dst-authority>; proto=https`. -/
theorem gateway_forward_loop (selfId peerId host : String) (port : Nat)
    (p : Profile) (target : Target) (req : GatewayRequest)
    (hid : target.tls_client_id = Conditional.some peerId)
    (hdst : target.dst.name_addr = Option.some (host, port)) :
    ((∃ hop ∈ req.forwarded, hop.byId = Option.some selfId) →
      gateway selfId (Option.some p) target req = Except.error HttpError.loopDetected ∧
      HttpError.loopDetected.status = 508) ∧
    ((∀ hop ∈ req.forwarded, hop.byId ≠ Option.some selfId) →
      gateway selfId (Option.some p) target req = Except.ok
        { forwarded := req.forwarded ++
            [{ byId := Option.some selfId
               forId := Option.some peerId
               hostAuth := Option.some (authorityOf host port)
               proto := Option.some "https" }] }) := by
  constructor
  · intro hloop
    have hany : (req.forwarded.any fun hop => hop.byId == Option.some selfId) = true := by
      rw [List.any_eq_true]
      obtain ⟨hop, hmem, hby⟩ := hloop
      exact ⟨hop, hmem, by simp [hby]⟩
    refine ⟨?_, rfl⟩
    simp [gateway, hid, hdst, hany]
  · intro hnoloop
    have hany : (req.forwarded.any fun hop => hop.byId == Option.some selfId) = false := by
      rcases Bool.eq_false_or_eq_true
          (req.forwarded.any fun hop => hop.byId == Option.some selfId) with ht | hf
      · rw [List.any_eq_true] at ht
        obtain ⟨hop, hmem, hby⟩ := ht
        exact absurd (by simpa using hby) (hnoloop hop hmem)
      · exact hf
    simp [gateway, hid, hdst, hany]

/-- Witness for claim C4: the repository's gateway test scenario — a
request whose chain already carries `by=gateway.id.test` is rejected with
508, and a clean request is forwarded with exactly the test's appended
hop. -/
theorem gateway_forward_loop_witness :
    (gateway "gateway.id.test" (Option.some ⟨Option.some "dst.test.example.com"⟩)
        sampleGatewayTarget { forwarded := [sampleAppendedHop] } =
      Except.error HttpError.loopDetected ∧
      HttpError.loopDetected.status = 508) ∧
    gateway "gateway.id.test" (Option.some ⟨Option.some "dst.test.example.com"⟩)
        sampleGatewayTarget sampleGatewayReq =
      Except.ok { forwarded := [sampleAppendedHop] } := by
  constructor
  · exact (gateway_forward_loop "gateway.id.test" "client.id.test"
      "dst.test.example.com" 4321 ⟨Option.some "dst.test.example.com"⟩
      sampleGatewayTarget { forwarded := [sampleAppendedHop] }
      rfl rfl).1 ⟨sampleAppendedHop, by decide, by decide⟩
  · have h := (gateway_forward_loop "gateway.id.test" "client.id.test"
      "dst.test.example.com" 4321 ⟨Option.some "dst.test.example.com"⟩
      sampleGatewayTarget sampleGatewayReq rfl rfl).2 (by intro hop hmem; cases hmem)
    rw [h]
    rfl

/-- Claim C5: a request reaching the gateway without a verified peer
identity fails with 403, regardless of destination or profile. -/
theorem gateway_no_identity (selfId : String) (reason : ReasonForNoPeerName)
    (profile : Option Profile) (target : Target) (req : GatewayRequest)
    (hid : target.tls_client_id = Conditional.none reason) :
    gateway selfId profile target req = Except.error HttpError.identityRequired ∧
    HttpError.identityRequired.status = 403 := by
  exact ⟨by simp [gateway, hid], rfl⟩

/-- Witness for claim C5: the gateway test's no-identity scenario yields
403. -/
theorem gateway_no_identity_witness :
    gateway "gateway.id.test" (Option.some ⟨Option.some "dst.test.example.com"⟩)
        { sampleGatewayTarget with
            tls_client_id :=
              Conditional.none ReasonForNoPeerName.noPeerIdFromRemote }
        sampleGatewayReq =
      Except.error HttpError.identityRequired ∧
    HttpError.identityRequired.status = 403 :=
  gateway_no_identity "gateway.id.test" ReasonForNoPeerName.noPeerIdFromRemote
    (Option.some ⟨Option.some "dst.test.example.com"⟩)
    { sampleGatewayTarget with
        tls_client_id := Conditional.none ReasonForNoPeerName.noPeerIdFromRemote }
    sampleGatewayReq rfl

/-- Claim C6: with identity present, the gateway fails with 404 — and
does not forward — when the destination has no name or when profile
discovery returns no profile. -/
theorem gateway_not_found (selfId peerId : String) (profile : Option Profile)
    (target : Target) (req : GatewayRequest)
    (hid : target.tls_client_id = Conditional.some peerId)
    (hmiss : target.dst.name_addr = Option.none ∨ profile = Option.none) :
    gateway selfId profile target req = Except.error HttpError.notFound ∧
    HttpError.notFound.status = 404 ∧
    ∀ fwd, gateway selfId profile target req ≠ Except.ok fwd := by
  have herr : gateway selfId profile target req = Except.error HttpError.notFound := by
    rcases hmiss with h | h
    · simp [gateway, hid, h]
    · cases hdst : target.dst.name_addr with
      | none => simp [gateway, hid, hdst]
      | some pr =>
        cases pr with
        | mk host port => simp [gateway, hid, hdst, h]
  refine ⟨herr, rfl, fun fwd hok => ?_⟩
  rw [herr] at hok
  exact Except.noConfusion hok

/-- Witness for claim C6: the gateway test's bad-domain (no profile) and
no-authority (unnamed destination) scenarios both yield 404. -/
theorem gateway_not_found_witness :
    (gateway "gateway.id.test" Option.none sampleGatewayTarget sampleGatewayReq =
      Except.error HttpError.notFound) ∧
    (gateway "gateway.id.test" (Option.some ⟨Option.some "dst.test.example.com"⟩)
        { sampleGatewayTarget with
            dst := Addr.socket ⟨IpAddr.v4 127 0 0 1, 4321⟩ }
        sampleGatewayReq =
      Except.error HttpError.notFound) ∧
    HttpError.notFound.status = 404 :=
  ⟨(gateway_not_found "gateway.id.test" "client.id.test" Option.none
      sampleGatewayTarget sampleGatewayReq rfl (Or.inr rfl)).1,
   (gateway_not_found "gateway.id.test" "client.id.test"
      (Option.some ⟨Option.some "dst.test.example.com"⟩)
      { sampleGatewayTarget with dst := Addr.socket ⟨IpAddr.v4 127 0 0 1, 4321⟩ }
      sampleGatewayReq rfl (Or.inl rfl)).1,
   rfl⟩

end Linkerd
